import Mathlib

/-
Shallow embedding of the tag-processing core of the cursor-crm repository
(scripts/reminders_cli.py, scripts/calendar_cli.py, scripts/imessage_send.py):
the quote- and parenthesis-aware tag scanners, the key=value parameter parser,
the temporal-expression resolver, the SHA-1 based stable-identity computation,
the sent-log ledger, and the per-occurrence processing loops.

Python strings are modelled as Lean String / List Char; Python dicts of string
keys and values as insertion-ordered association lists with overwrite-on-insert;
machine arithmetic inside SHA-1 as Nat with explicit reduction modulo 2 ^ 32;
fallible Python code (raising) as Except; the two external boundaries
(the osascript Action Executor and the file system holding the ledger) as an
explicit success oracle and an explicit store value threaded through the run.
-/

set_option maxRecDepth 20000

namespace CursorCRM

/-- Decidable equality for Except, so that concrete runs of the fallible
functions can be checked by evaluation. -/
instance exceptDecEq {ε α : Type} [DecidableEq ε] [DecidableEq α] :
    DecidableEq (Except ε α)
  | .error e1, .error e2 =>
    if h : e1 = e2 then .isTrue (by rw [h]) else .isFalse (fun hh => h (Except.error.inj hh))
  | .error _, .ok _ => .isFalse (fun hh => Except.noConfusion hh)
  | .ok _, .error _ => .isFalse (fun hh => Except.noConfusion hh)
  | .ok a1, .ok a2 =>
    if h : a1 = a2 then .isTrue (by rw [h]) else .isFalse (fun hh => h (Except.ok.inj hh))

/-! ## Python-style character and string helpers -/

/-- ASCII decimal digit test (regex backslash-d on the inputs at hand). -/
def isDigitCh (c : Char) : Bool := decide ('0' ≤ c) && decide (c ≤ '9')

/-- ASCII whitespace, the characters Python str.strip and regex backslash-s
treat as space on ASCII input. -/
def isSpaceCh (c : Char) : Bool :=
  c = ' ' || c = '\t' || c = '\n' || c = '\r' || c = '\x0b' || c = '\x0c'

/-- Python str.strip on a character list. -/
def pyStripL (l : List Char) : List Char :=
  ((l.dropWhile isSpaceCh).reverse.dropWhile isSpaceCh).reverse

/-- Value of a list of decimal digit characters (most significant first). -/
def digitsToNat (l : List Char) : Nat :=
  l.foldl (fun acc c => acc * 10 + (c.toNat - 48)) 0

/-- Python substring test (the `in` operator on str). -/
def listContainsSub (sub : List Char) : List Char → Bool
  | [] => sub.isEmpty
  | c :: rest => sub.isPrefixOf (c :: rest) || listContainsSub sub rest

/-- Python str.replace, fuelled: every iteration consumes at least one
character, so fuel equal to the input length always suffices and the
zero-fuel case is unreachable. -/
def listReplaceGo (pat rep : List Char) : Nat → List Char → List Char
  | _, [] => []
  | 0, s => s
  | fuel + 1, c :: rest =>
    if pat ≠ [] ∧ pat.isPrefixOf (c :: rest) then
      rep ++ listReplaceGo pat rep fuel ((c :: rest).drop pat.length)
    else
      c :: listReplaceGo pat rep fuel rest

/-- Python str.replace: replace every non-overlapping occurrence of `pat`,
scanning left to right. -/
def listReplace (pat rep s : List Char) : List Char :=
  listReplaceGo pat rep s.length s

/-- Python str.lower (ASCII). -/
def lowerStr (s : String) : String := String.mk (s.data.map Char.toLower)

/-- Python str substring test on String. -/
def strContains (sub s : String) : Bool := listContainsSub sub.data s.data

/-- Python str.endswith with a tuple of suffixes. -/
def strEndsWithAny (s : String) (suffs : List String) : Bool :=
  suffs.any (fun x => x.data.isSuffixOf s.data)

/-! ## Parameter sets (Python dict of str to str, insertion ordered) -/

/-- A parsed Parameter Set: insertion-ordered association list with unique keys. -/
abbrev Params := List (String × String)

/-- Python dict.get: first binding of the key, if any (keys are unique). -/
def pget (d : Params) (k : String) : Option String := List.lookup k d

/-- Python dict assignment: overwrite the existing binding, else append. -/
def dinsert (d : Params) (k v : String) : Params :=
  if d.any (fun p => p.1 == k) then
    d.map (fun p => if p.1 == k then (k, v) else p)
  else d ++ [(k, v)]

/-! ## split_kvlist (identical in reminders_cli.py, calendar_cli.py and
imessage_send.py): split a comma-separated key=value list respecting quoted
strings.  A backslash sets an escape flag and is itself dropped from the
output; the escaped character is appended verbatim; a double quote toggles
the in-quotes flag; a comma outside quotes ends the current segment. -/

def splitKVAux : List Char → Bool → Bool → List Char → List (List Char)
  | [], _inq, _esc, buf => if buf.isEmpty then [] else [pyStripL buf]
  | c :: rest, inq, esc, buf =>
    if esc then splitKVAux rest inq false (buf ++ [c])
    else if c = '\\' then splitKVAux rest inq true buf
    else if c = '"' then splitKVAux rest (!inq) false (buf ++ [c])
    else if c = ',' ∧ inq = false then pyStripL buf :: splitKVAux rest inq false []
    else splitKVAux rest inq false (buf ++ [c])

def split_kvlist (s : String) : List String :=
  ((splitKVAux s.data false false []).filter (fun p => !p.isEmpty)).map String.mk

/-! ## unquote (reminders_cli.py lines 148-157; the one-line variant in
imessage_send.py and calendar_cli.py performs the same replacements in the
same order): strip surrounding double quotes and unescape, in source order,
backslash-quote, then backslash-n and backslash-t, then double backslash. -/

def unquote (s : String) : String :=
  let l := pyStripL s.data
  if 2 ≤ l.length ∧ l.head? = some '"' ∧ l.getLast? = some '"' then
    let inner := (l.drop 1).dropLast
    let inner := listReplace ['\\', '"'] ['"'] inner
    let inner := listReplace ['\\', 'n'] ['\n'] inner
    let inner := listReplace ['\\', 't'] ['\t'] inner
    let inner := listReplace ['\\', '\\'] ['\\'] inner
    String.mk inner
  else String.mk l

/-- parse_bool (reminders_cli.py lines 160-166). -/
def parse_bool (s : String) : Except String Bool :=
  let sl := lowerStr (String.mk (pyStripL s.data))
  if sl = "true" ∨ sl = "yes" ∨ sl = "1" then .ok true
  else if sl = "false" ∨ sl = "no" ∨ sl = "0" then .ok false
  else .error ("Invalid boolean value: " ++ s)

/-- Python int() on a string: optional sign, nonempty digit run, surrounding
whitespace allowed (numeric-literal underscores are not modelled; no input in
this development contains them). -/
def pyInt (s : String) : Except String Int :=
  let l := pyStripL s.data
  match l with
  | '+' :: ds =>
    if !ds.isEmpty && ds.all isDigitCh then .ok (digitsToNat ds : Int)
    else .error ("invalid literal for int: " ++ s)
  | '-' :: ds =>
    if !ds.isEmpty && ds.all isDigitCh then .ok (-(digitsToNat ds : Int))
    else .error ("invalid literal for int: " ++ s)
  | ds =>
    if !ds.isEmpty && ds.all isDigitCh then .ok (digitsToNat ds : Int)
    else .error ("invalid literal for int: " ++ s)

/-! ## parse_tag_params (reminders_cli.py lines 169-187; the copies in
calendar_cli.py and imessage_send.py are textually identical in behaviour):
split on top-level commas, accept a first positional quoted segment as the
message, then parse key=value segments, raising on a segment without an
equals sign. -/

/-- Split a segment once on the first equals sign: Python pair.split with
maxsplit one. -/
def splitOnceEq (l : List Char) : List Char × List Char :=
  (l.takeWhile (fun c => c != '='), (l.dropWhile (fun c => c != '=')).drop 1)

def parseKVLoop : List String → Params → Except String Params
  | [], d => .ok d
  | seg :: rest, d =>
    if seg.data.contains '=' then
      let kv := splitOnceEq seg.data
      let key := String.mk (pyStripL kv.1)
      let val := unquote (String.mk (pyStripL kv.2))
      parseKVLoop rest (dinsert d key val)
    else
      .error ("Invalid parameter segment (expected key=value): " ++ seg)

def parse_tag_params (params_text : String) : Except String Params :=
  let pairs := split_kvlist params_text
  match pairs with
  | [] => .ok []
  | first :: rest =>
    let fs := pyStripL first.data
    if (first.data.contains '=') = false ∧ fs.head? = some '"' ∧
        fs.getLast? = some '"' then
      parseKVLoop rest (dinsert [] "message" (unquote first))
    else
      parseKVLoop (first :: rest) []

/-! ## Tag scanners

reminders_cli.py walks each line character by character
(_extract_tag_params_from_line, lines 384-436): after the literal opener the
scan tracks a parenthesis depth (starting at 1), an in-quotes flag and a
backslash-escape flag; parentheses inside quotes are inert; the tag closes
when depth returns to zero; with no closing parenthesis the line yields
nothing further.

calendar_cli.py and imessage_send.py instead scan each line with the regex
at-tagname, open parenthesis, any run of characters other than a closing
parenthesis, closing parenthesis - so their capture always stops at the first
closing parenthesis, quoted or not. -/

/-- Inner scanning loop of _extract_tag_params_from_line: consume characters
after the opener, returning the raw parameter text and the rest of the line
after the closing parenthesis, or none when the tag is unterminated. -/
def scanTagBody : List Char → Nat → Bool → Bool → List Char →
    Option (List Char × List Char)
  | [], _, _, _, _ => none
  | c :: rest, depth, inq, esc, buf =>
    if esc then scanTagBody rest depth inq false (buf ++ [c])
    else if c = '\\' then scanTagBody rest depth inq true (buf ++ [c])
    else if c = '"' then scanTagBody rest depth (!inq) false (buf ++ [c])
    else if c = '(' ∧ inq = false then scanTagBody rest (depth + 1) inq false (buf ++ [c])
    else if c = ')' ∧ inq = false then
      if depth = 1 then some (buf, rest)
      else scanTagBody rest (depth - 1) inq false (buf ++ [c])
    else scanTagBody rest depth inq false (buf ++ [c])

/-- Python str.find followed by slicing: the rest of the list after the first
occurrence of the (nonempty) pattern, or none when the pattern is absent. -/
def afterFirst (pat : List Char) : List Char → Option (List Char)
  | [] => none
  | c :: rest =>
    if pat.isPrefixOf (c :: rest) then some ((c :: rest).drop pat.length)
    else afterFirst pat rest

def reminderOpener : List Char := "@reminder(".data

/-- Outer while loop of _extract_tag_params_from_line.  Each iteration
consumes at least the opener, so fuel equal to the line length plus one is
always sufficient. -/
def extractLoop : Nat → List Char → List (List Char)
  | 0, _ => []
  | fuel + 1, l =>
    match afterFirst reminderOpener l with
    | none => []
    | some s =>
      match scanTagBody s 1 false false [] with
      | none => []
      | some (params, rest) => params :: extractLoop fuel rest

def _extract_tag_params_from_line (line : String) : List String :=
  (extractLoop (line.data.length + 1) line.data).map String.mk

/-- Python str.splitlines on the line endings that occur in this development. -/
def splitlinesAux : List Char → List Char → List (List Char)
  | [], buf => if buf.isEmpty then [] else [buf]
  | '\r' :: '\n' :: rest, buf => buf :: splitlinesAux rest []
  | '\r' :: rest, buf => buf :: splitlinesAux rest []
  | '\n' :: rest, buf => buf :: splitlinesAux rest []
  | c :: rest, buf => splitlinesAux rest (buf ++ [c])

def pySplitlines (text : String) : List String :=
  (splitlinesAux text.data []).map String.mk

/-- find_tags_in_text (reminders_cli.py lines 439-445): all occurrences with
their one-based line numbers, in source order. -/
def find_tags_in_text (text : String) : List (Nat × String) :=
  (List.enumFrom 1 (pySplitlines text)).map
    (fun p => (_extract_tag_params_from_line p.2).map (fun t => (p.1, t)))
  |>.flatten

/-- One line of the regex scan used by calendar_cli.py and imessage_send.py:
find the literal opener, capture the run of characters other than a closing
parenthesis, require the closing parenthesis, repeat after the match. -/
def regexTagLoop (opener : List Char) : Nat → List Char → List (List Char)
  | 0, _ => []
  | fuel + 1, l =>
    match afterFirst opener l with
    | none => []
    | some s =>
      let body := s.takeWhile (fun c => c != ')')
      match s.dropWhile (fun c => c != ')') with
      | ')' :: rest2 => body :: regexTagLoop opener fuel rest2
      | _ => []

/-- find_calendar_tags_in_text (calendar_cli.py lines 271-277), built on the
regex with the at-calendar opener. -/
def find_calendar_tags_in_text (text : String) : List (Nat × String) :=
  (List.enumFrom 1 (pySplitlines text)).map
    (fun p =>
      (regexTagLoop "@calendar(".data (p.2.data.length + 1) p.2.data).map
        (fun t => (p.1, String.mk t)))
  |>.flatten

/-- find_tags_in_text of imessage_send.py (lines 95-101), built on the regex
with the at-imessage opener. -/
def imessage_find_tags_in_text (text : String) : List (Nat × String) :=
  (List.enumFrom 1 (pySplitlines text)).map
    (fun p =>
      (regexTagLoop "@imessage(".data (p.2.data.length + 1) p.2.data).map
        (fun t => (p.1, String.mk t)))
  |>.flatten

/-! ## Naive local datetimes (Python datetime.datetime, no timezone)

Calendar arithmetic follows the standard civil-from-days / days-from-civil
correspondence on the proleptic Gregorian calendar used by Python datetime.
All values used by the scripts have year at least one, so Nat arithmetic
suffices; the datetime range bounds (years 1 to 9999) are not modelled. -/

structure PyDateTime where
  year : Nat
  month : Nat
  day : Nat
  hour : Nat
  minute : Nat
  second : Nat
  micro : Nat
deriving DecidableEq, Repr

/-- Day count of a civil date from the epoch 0000-03-01. -/
def daysFromCivil (y m d : Nat) : Nat :=
  let yAdj := if m ≤ 2 then y - 1 else y
  let era := yAdj / 400
  let yoe := yAdj % 400
  let mp := (m + 9) % 12
  let doy := (153 * mp + 2) / 5 + (d - 1)
  let doe := yoe * 365 + yoe / 4 - yoe / 100 + doy
  era * 146097 + doe

/-- Civil date (year, month, day) of a day count from the epoch 0000-03-01. -/
def civilFromDays (z : Nat) : Nat × Nat × Nat :=
  let era := z / 146097
  let doe := z % 146097
  let yoe := (doe - doe / 1460 + doe / 36524 - doe / 146096) / 365
  let yAdj := yoe + era * 400
  let doy := doe - (365 * yoe + yoe / 4 - yoe / 100)
  let mp := (5 * doy + 2) / 153
  let d := doy - (153 * mp + 2) / 5 + 1
  let m := if mp < 10 then mp + 3 else mp - 9
  (if m ≤ 2 then yAdj + 1 else yAdj, m, d)

def dtToSeconds (dt : PyDateTime) : Nat :=
  daysFromCivil dt.year dt.month dt.day * 86400 +
    dt.hour * 3600 + dt.minute * 60 + dt.second

def dtOfSecondsMicro (n micro : Nat) : PyDateTime :=
  let c := civilFromDays (n / 86400)
  let rem := n % 86400
  ⟨c.1, c.2.1, c.2.2, rem / 3600, rem % 3600 / 60, rem % 60, micro⟩

/-- Adding a nonnegative datetime.timedelta of whole seconds (the microsecond
component is untouched by the whole-minute and whole-day offsets in use). -/
def dtAddSeconds (dt : PyDateTime) (s : Nat) : PyDateTime :=
  dtOfSecondsMicro (dtToSeconds dt + s) dt.micro

/-- Python datetime.replace with the given hour and minute and with second
and microsecond zero; raises ValueError outside the valid field ranges. -/
def dtReplaceHM (dt : PyDateTime) (hh mm : Nat) : Except String PyDateTime :=
  if hh ≤ 23 ∧ mm ≤ 59 then
    .ok { dt with hour := hh, minute := mm, second := 0, micro := 0 }
  else .error "hour or minute out of range in replace"

def isLeapYear (y : Nat) : Bool :=
  y % 4 = 0 && (y % 100 != 0 || y % 400 = 0)

def daysInMonth (y m : Nat) : Nat :=
  if m = 2 then (if isLeapYear y then 29 else 28)
  else if m = 4 ∨ m = 6 ∨ m = 9 ∨ m = 11 then 30
  else 31

/-! ## parse_at_expression (reminders_cli.py lines 190-222; calendar_cli.py
lines 101-129 is the identical function): relative offsets, today HH:MM,
tomorrow HH:MM (both case-insensitive), then the two strptime formats. -/

/-- The relative-offset pattern: a plus sign, a nonempty digit run, one unit
character among m, h, d, end of string. -/
def matchRelative (l : List Char) : Option (Nat × Char) :=
  match l with
  | '+' :: rest =>
    let ds := rest.takeWhile isDigitCh
    if ds.isEmpty then none
    else
      match rest.dropWhile isDigitCh with
      | [u] => if u = 'm' ∨ u = 'h' ∨ u = 'd' then some (digitsToNat ds, u) else none
      | _ => none
  | _ => none

/-- The trailing hour-minute pattern: one or two digits, a colon, exactly two
digits, end of string. -/
def matchHM : List Char → Option (Nat × Nat)
  | [h1, ':', m1, m2] =>
    if isDigitCh h1 && isDigitCh m1 && isDigitCh m2 then
      some (digitsToNat [h1], digitsToNat [m1, m2])
    else none
  | [h1, h2, ':', m1, m2] =>
    if isDigitCh h1 && isDigitCh h2 && isDigitCh m1 && isDigitCh m2 then
      some (digitsToNat [h1, h2], digitsToNat [m1, m2])
    else none
  | _ => none

/-- A case-insensitive keyword, at least one whitespace character, then the
hour-minute pattern. -/
def matchDayTime (keyword : List Char) (l : List Char) : Option (Nat × Nat) :=
  if (l.take keyword.length).map Char.toLower = keyword then
    let rest := l.drop keyword.length
    if (rest.takeWhile isSpaceCh).isEmpty then none
    else matchHM (rest.dropWhile isSpaceCh)
  else none

/-- One numeric strptime field: a digit run of length between one and
`maxDigits` (the following character is a non-digit literal, so the regex
alternations of CPython strptime reduce to this bound on the maximal run). -/
def parseNumField (maxDigits : Nat) (l : List Char) : Option (Nat × List Char) :=
  let ds := l.takeWhile isDigitCh
  if 1 ≤ ds.length ∧ ds.length ≤ maxDigits then
    some (digitsToNat ds, l.dropWhile isDigitCh)
  else none

/-- The strptime year directive: exactly four digits. -/
def parseYear4 (l : List Char) : Option (Nat × List Char) :=
  let ds := l.takeWhile isDigitCh
  if ds.length = 4 then some (digitsToNat ds, l.dropWhile isDigitCh) else none

def expectChar (c : Char) : List Char → Option (List Char)
  | x :: rest => if x = c then some rest else none
  | [] => none

/-- Literal whitespace in a strptime format: one or more whitespace characters. -/
def expectWs (l : List Char) : Option (List Char) :=
  if (l.takeWhile isSpaceCh).isEmpty then none else some (l.dropWhile isSpaceCh)

/-- Python datetime.strptime with format year-month-day hour:minute and
optionally :second, including the range validation performed by the regex
alternations and the datetime constructor (month 1-12, day within the month,
hour at most 23, minute and second at most 59, year at least one). -/
def strptimeDateTime (withSeconds : Bool) (l : List Char) : Option PyDateTime := do
  let (y, r) ← parseYear4 l
  let r ← expectChar '-' r
  let (mo, r) ← parseNumField 2 r
  let r ← expectChar '-' r
  let (d, r) ← parseNumField 2 r
  let r ← expectWs r
  let (h, r) ← parseNumField 2 r
  let r ← expectChar ':' r
  let (mi, r) ← parseNumField 2 r
  let (s, r) ← (if withSeconds then do
      let r2 ← expectChar ':' r
      let (sv, r3) ← parseNumField 2 r2
      pure (sv, r3)
    else pure (0, r) : Option (Nat × List Char))
  if r = [] ∧ 1 ≤ y ∧ 1 ≤ mo ∧ mo ≤ 12 ∧ 1 ≤ d ∧ d ≤ daysInMonth y mo ∧
      h ≤ 23 ∧ mi ≤ 59 ∧ s ≤ 59 then
    some ⟨y, mo, d, h, mi, s, 0⟩
  else none

def parse_at_expression (expr : String) (now : PyDateTime) : Except String PyDateTime :=
  let e := pyStripL expr.data
  match matchRelative e with
  | some (value, u) =>
    if u = 'm' then .ok (dtAddSeconds now (value * 60))
    else if u = 'h' then .ok (dtAddSeconds now (value * 3600))
    else .ok (dtAddSeconds now (value * 86400))
  | none =>
  match matchDayTime "today".data e with
  | some (hh, mm) => dtReplaceHM now hh mm
  | none =>
  match matchDayTime "tomorrow".data e with
  | some (hh, mm) => dtReplaceHM (dtAddSeconds now 86400) hh mm
  | none =>
  match strptimeDateTime false e with
  | some d => .ok d
  | none =>
  match strptimeDateTime true e with
  | some d => .ok d
  | none => .error ("Unrecognized at expression: " ++ expr)

/-! ## UTF-8 encoding and SHA-1 (Python str.encode and hashlib.sha1)

Bytes are Nat values below 256 and 32-bit words are Nat values reduced
modulo 2 ^ 32 after every operation that can overflow. -/

def utf8EncodeCharB (c : Char) : List Nat :=
  let n := c.toNat
  if n < 128 then [n]
  else if n < 2048 then [192 + n / 64, 128 + n % 64]
  else if n < 65536 then [224 + n / 4096, 128 + n / 64 % 64, 128 + n % 64]
  else [240 + n / 262144, 128 + n / 4096 % 64, 128 + n / 64 % 64, 128 + n % 64]

def utf8Bytes (s : String) : List Nat := (s.data.map utf8EncodeCharB).flatten

def w32 (n : Nat) : Nat := n % 4294967296

/-- Rotate a 32-bit word left by b bits. -/
def rotl32 (b n : Nat) : Nat := w32 (w32 n * 2 ^ b + w32 n / 2 ^ (32 - b))

/-- Big-endian bytes of a number, fixed width, truncating above. -/
def natToBytesBE : Nat → Nat → List Nat
  | 0, _ => []
  | k + 1, n => natToBytesBE k (n / 256) ++ [n % 256]

/-- SHA-1 message padding: the 128 byte, zeros to 56 modulo 64, then the
bit length as eight big-endian bytes. -/
def sha1Pad (msg : List Nat) : List Nat :=
  let len := msg.length
  let zeros := (120 - (len + 1) % 64) % 64
  msg ++ 128 :: List.replicate zeros 0 ++ natToBytesBE 8 (8 * len)

/-- Big-endian 32-bit words of a byte list whose length is a multiple of 4. -/
def bytesToWords : List Nat → List Nat
  | b0 :: b1 :: b2 :: b3 :: rest =>
    (b0 * 16777216 + b1 * 65536 + b2 * 256 + b3) :: bytesToWords rest
  | _ => []

/-- Extend the sixteen chunk words with k further schedule words; the words
produced so far are kept most recent first, so the word t - i steps back is
at index i - 1. -/
def extendSchedule (racc : List Nat) : Nat → List Nat
  | 0 => racc.reverse
  | k + 1 =>
    let g := fun i => racc.getD (i - 1) 0
    extendSchedule
      (rotl32 1 (Nat.xor (Nat.xor (g 3) (g 8)) (Nat.xor (g 14) (g 16))) :: racc) k

def sha1F (i b c d : Nat) : Nat :=
  if i < 20 then Nat.lor (Nat.land b c) (Nat.land (Nat.xor b 4294967295) d)
  else if i < 40 then Nat.xor (Nat.xor b c) d
  else if i < 60 then Nat.lor (Nat.lor (Nat.land b c) (Nat.land b d)) (Nat.land c d)
  else Nat.xor (Nat.xor b c) d

def sha1K (i : Nat) : Nat :=
  if i < 20 then 1518500249
  else if i < 40 then 1859775393
  else if i < 60 then 2400959708
  else 3395469782

abbrev W5 := Nat × Nat × Nat × Nat × Nat

def sha1Rounds : Nat → List Nat → W5 → W5
  | _, [], st => st
  | i, wt :: ws, (a, b, c, d, e) =>
    sha1Rounds (i + 1) ws
      (w32 (rotl32 5 a + sha1F i b c d + e + sha1K i + wt), a, rotl32 30 b, c, d)

def sha1Chunk (h : W5) (chunk : List Nat) : W5 :=
  match sha1Rounds 0 (extendSchedule (bytesToWords chunk).reverse 64) h, h with
  | (a, b, c, d, e), (h0, h1, h2, h3, h4) =>
    (w32 (h0 + a), w32 (h1 + b), w32 (h2 + c), w32 (h3 + d), w32 (h4 + e))

/-- Split into 64-byte chunks, fuelled: every iteration consumes at least
one byte, so fuel equal to the input length always suffices. -/
def chunks64Go : Nat → List Nat → List (List Nat)
  | _, [] => []
  | 0, _ => []
  | fuel + 1, c :: rest => ((c :: rest).take 64) :: chunks64Go fuel ((c :: rest).drop 64)

def chunks64 (l : List Nat) : List (List Nat) := chunks64Go l.length l

def sha1Init : W5 := (1732584193, 4023233417, 2562383102, 271733878, 3285377520)

/-- The five final state words of SHA-1 over a byte string. -/
def sha1Words (msg : List Nat) : W5 :=
  (chunks64 (sha1Pad msg)).foldl sha1Chunk sha1Init

/-- The 160-bit SHA-1 digest as a single Nat (big-endian word order). -/
def sha1Nat (msg : List Nat) : Nat :=
  match sha1Words msg with
  | (h0, h1, h2, h3, h4) =>
    (((h0 * 4294967296 + h1) * 4294967296 + h2) * 4294967296 + h3) * 4294967296 + h4

def hexDigitCh (n : Nat) : Char :=
  if n < 10 then Char.ofNat (48 + n) else Char.ofNat (87 + n)

/-- hashlib hexdigest: forty lowercase hex characters. -/
def sha1HexChars (msg : List Nat) : List Char :=
  (List.range 40).map (fun i => hexDigitCh (sha1Nat msg / 16 ^ (39 - i) % 16))

/-! ## _compute_stable_marker (reminders_cli.py lines 448-470) -/

/-- The hash input: UTF-8 bytes of the absolute path, one newline byte, UTF-8
bytes of the message. -/
def markerHashInput (absPath message : String) : List Nat :=
  utf8Bytes absPath ++ 10 :: utf8Bytes message

/-- hexdigest truncated to its first twelve characters. -/
def markerDigest (absPath message : String) : String :=
  String.mk ((sha1HexChars (markerHashInput absPath message)).take 12)

def fallbackMarker (absPath : String) (params : Params) : String :=
  "@source:" ++ absPath ++ "#" ++
    markerDigest absPath ((pget params "message").getD "")

/-- An explicit id that is absent or empty is falsy in Python, so the hash
fallback is taken. -/
def _compute_stable_marker (absPath : String) (params : Params) : String :=
  match pget params "id" with
  | some i => if i = "" then fallbackMarker absPath params else "@source:id:" ++ i
  | none => fallbackMarker absPath params

/-! ## The sent-reminders ledger (.cursor/sent_reminders.json)

The persisted store is modelled by the outcome of opening and JSON-parsing
it: the file can be missing (FileNotFoundError), can hold bytes that are not
valid UTF-8 (text-mode open with encoding utf-8 raises UnicodeDecodeError),
can hold text that is not JSON (json.load raises json.JSONDecodeError), or
can hold a parsed JSON document.  _load_sent_log catches exactly
FileNotFoundError and JSONDecodeError. -/

/-- JSON documents at the granularity the scripts inspect: arrays, objects
with string values, and anything else. -/
inductive Json where
  | arr (elems : List Json)
  | obj (fields : List (String × String))
  | other

inductive LedgerStore where
  | missing
  | undecodable
  | unparseable
  | json (j : Json)

/-- Python exceptions that escape the functions modelled here. -/
inductive PyErr where
  | unicodeDecodeError
  | attributeError
deriving DecidableEq

/-- _load_sent_log (reminders_cli.py lines 482-494): missing file and
JSON-decode failure yield the empty list, a parsed non-list yields the empty
list, a parsed list yields its elements; a UnicodeDecodeError is not caught. -/
def _load_sent_log : LedgerStore → Except PyErr (List Json)
  | .missing => .ok []
  | .undecodable => .error .unicodeDecodeError
  | .unparseable => .ok []
  | .json (.arr es) => .ok es
  | .json _ => .ok []

/-- e.get on a loaded entry: objects answer, anything else raises
AttributeError (uncaught in process_file). -/
def entryIdOpt : Json → Except PyErr (Option String)
  | .obj fields => .ok (fields.lookup "id")
  | _ => .error .attributeError

/-- The skip set: ids of loaded entries whose id field is truthy
(process_file line 528). -/
def sentIdsOf : List Json → Except PyErr (List String)
  | [] => .ok []
  | e :: rest =>
    match entryIdOpt e with
    | .error err => .error err
    | .ok i =>
      match sentIdsOf rest with
      | .error err => .error err
      | .ok restIds =>
        match i with
        | some s => if s = "" then .ok restIds else .ok (s :: restIds)
        | none => .ok restIds

/-! ## The reminders pipeline (reminders_cli.py process_file, lines 509-584) -/

/-- infer_smallest_step (reminders_cli.py lines 59-89). -/
def infer_smallest_step (taskName : String) (note : Option String) : String :=
  let t := lowerStr taskName
  if ["focus block", "draft", "write", "outline", "edit"].any
      (fun k => strContains k t) then
    "Open the task file and write the first sentence."
  else if (strContains "linkedin" t || strContains "twitter" t ||
      strContains "x.com" t) &&
      (["post", "publish", "tweet"].any (fun k => strContains k t)) then
    "Open LinkedIn compose and paste your draft text."
  else if ["sign up", "signup", "register", "rsvp"].any (fun k => strContains k t) then
    "Open the signup link (or message the coordinator for it) and pick the first available slot."
  else if strContains "follow up" t || strContains "follow-up" t then
    "Open the thread and type a one-sentence nudge; send."
  else if ["schedule", "book", "set up meeting", "calendar"].any
      (fun k => strContains k t) then
    "Open your calendar and propose two times."
  else if ["pay", "invoice", "send payment", "venmo", "wire", "transfer"].any
      (fun k => strContains k t) then
    "Open your payment app and search the recipient."
  else if ["review", "proofread", "skim"].any (fun k => strContains k t) then
    "Open the doc and read the first screen; add one comment."
  else
    match note with
    | some nt =>
      if nt != "" && (strContains "/" nt || strEndsWithAny nt [".md", ".txt", ".docx", ".rtf"]) then
        "Open " ++ nt ++ "."
      else "Start a 2-minute timer and take the tiniest next step."
    | none => "Start a 2-minute timer and take the tiniest next step."

/-- generate_descriptive_note (reminders_cli.py lines 92-99). -/
def generate_descriptive_note (name : String) (note : Option String)
    (_listName : Option String) : String :=
  let firstStep := infer_smallest_step name note
  let joiner := if firstStep.data.getLast? = some '.' then " " else ". "
  firstStep ++ joiner ++ "Then: " ++ name ++ "."

/-- Zero-padded decimal rendering used by datetime.isoformat. -/
def padNum (width n : Nat) : String :=
  let s := toString n
  String.mk (List.replicate (width - s.data.length) '0') ++ s

/-- datetime.isoformat with timespec minutes. -/
def isoMinutes (dt : PyDateTime) : String :=
  padNum 4 dt.year ++ "-" ++ padNum 2 dt.month ++ "-" ++ padNum 2 dt.day ++
    "T" ++ padNum 2 dt.hour ++ ":" ++ padNum 2 dt.minute

/-- datetime.isoformat with timespec seconds. -/
def isoSeconds (dt : PyDateTime) : String :=
  isoMinutes dt ++ ":" ++ padNum 2 dt.second

/-- Python str on a bool. -/
def pyStrBool (b : Bool) : String := if b then "True" else "False"

/-- The Action handed to create_reminder, including the embedded marker. -/
structure RemAction where
  name : String
  due : PyDateTime
  note : String
  listName : Option String
  priority : Option Int
  flagged : Option Bool
  marker : String
deriving DecidableEq

/-- One record of the sent log (process_file lines 568-580). -/
structure SentEntry where
  id : String
  message : String
  atStr : String
  listName : String
  note : String
  priority : String
  flagged : String
  source : String
  file : String
  line : String
  loggedAt : String
deriving DecidableEq

/-- The JSON object written for a sent-log entry. -/
def entryJson (e : SentEntry) : Json :=
  .obj [("id", e.id), ("message", e.message), ("at", e.atStr),
    ("list", e.listName), ("note", e.note), ("priority", e.priority),
    ("flagged", e.flagged), ("source", e.source), ("file", e.file),
    ("line", e.line), ("logged_at", e.loggedAt)]

/-- _append_sent_log (lines 503-506): reload the store, append, rewrite. -/
def appendToStore (store : LedgerStore) (e : SentEntry) :
    Except PyErr LedgerStore :=
  match _load_sent_log store with
  | .error err => .error err
  | .ok entries => .ok (.json (.arr (entries ++ [entryJson e])))

/-- What the per-occurrence body decides before any side effect: skip via the
sent log, or send a fully assembled Action and its prospective log entry. -/
inductive OccAction where
  | skip (id : String)
  | send (a : RemAction) (entry : SentEntry)

/-- The try-block body of process_file for one occurrence (lines 531-553 and
the construction of the Action and log entry), up to but excluding the side
effects: parameter parsing, required-field check with Python truthiness,
temporal resolution, priority and flagged parsing, marker computation and the
sent-log skip test, in source order. -/
def evalParsedOccurrence (ignoreSentLog : Bool) (absPath : String)
    (sentIds : List String) (now logNow : PyDateTime) (lineNo : Nat)
    (params : Params) : Except String OccAction :=
  match pget params "message", pget params "at" with
  | some name, some atExpr =>
    if name = "" ∨ atExpr = "" then .error "Both message and at are required"
    else
      match parse_at_expression atExpr now with
      | .error e => .error e
      | .ok due =>
        let listName := pget params "list"
        let note := pget params "note"
        match (match pget params "priority" with
               | some p => Except.map some (pyInt p)
               | none => .ok none : Except String (Option Int)) with
        | .error e => .error e
        | .ok priority =>
          match (match pget params "flagged" with
                 | some f => Except.map some (parse_bool f)
                 | none => .ok none : Except String (Option Bool)) with
          | .error e => .error e
          | .ok flagged =>
            let marker := _compute_stable_marker absPath params
            let act : RemAction :=
              ⟨name, due, generate_descriptive_note name note listName,
                listName, priority, flagged, marker⟩
            let entry : SentEntry :=
              ⟨(pget params "id").getD "", name, isoMinutes due,
                listName.getD "", note.getD "",
                (priority.map toString).getD "",
                (flagged.map pyStrBool).getD "", marker, absPath,
                toString lineNo, isoSeconds logNow⟩
            match pget params "id" with
            | some i =>
              if i ≠ "" ∧ ignoreSentLog = false ∧ i ∈ sentIds then
                .ok (.skip i)
              else .ok (.send act entry)
            | none => .ok (.send act entry)
  | _, _ => .error "Both message and at are required"

def evalOccurrence (ignoreSentLog : Bool) (absPath : String)
    (sentIds : List String) (now logNow : PyDateTime) (lineNo : Nat)
    (paramsText : String) : Except String OccAction :=
  match parse_tag_params paramsText with
  | .error e => .error e
  | .ok params =>
    evalParsedOccurrence ignoreSentLog absPath sentIds now logNow lineNo params

inductive RemOutcome where
  | skippedLogged (id : String)
  | dispatched (a : RemAction)
  | failed (msg : String)
deriving DecidableEq

/-- One iteration of the process_file loop: the decision above followed by
the side effects, with every exception caught, written to stderr with the
source line number, and the loop continued.  In dry-run mode create_reminder
returns before invoking osascript and nothing is appended; otherwise the
executor is invoked (recorded in calls) and, on success, the entry is
appended via _append_sent_log, whose own reload can raise inside the try. -/
def processOccurrence (dryRun ignoreSentLog : Bool) (absPath : String)
    (sentIds : List String) (now logNow : PyDateTime) (execOk : Bool)
    (store : LedgerStore) (lineNo : Nat) (paramsText : String) :
    LedgerStore × List RemAction × (Nat × RemOutcome) :=
  match evalOccurrence ignoreSentLog absPath sentIds now logNow lineNo paramsText with
  | .error e =>
    (store, [], (lineNo, .failed ("Error on line " ++ toString lineNo ++ ": " ++ e)))
  | .ok (.skip i) => (store, [], (lineNo, .skippedLogged i))
  | .ok (.send a entry) =>
    if dryRun then (store, [], (lineNo, .dispatched a))
    else if execOk then
      match appendToStore store entry with
      | .ok store2 => (store2, [a], (lineNo, .dispatched a))
      | .error _ =>
        (store, [a],
          (lineNo, .failed ("Error on line " ++ toString lineNo ++ ": UnicodeDecodeError")))
    else
      (store, [a],
        (lineNo, .failed ("Error on line " ++ toString lineNo ++ ": osascript failed")))

structure LoopOut where
  store : LedgerStore
  calls : List RemAction
  outcomes : List (Nat × RemOutcome)

/-- The for loop of process_file.  The executor oracle maps the index of an
osascript invocation to its success; the index advances only when a call is
actually made. -/
def processLoop (dryRun ignoreSentLog : Bool) (absPath : String)
    (sentIds : List String) (now logNow : PyDateTime) (execOk : Nat → Bool)
    (store : LedgerStore) (callIdx : Nat) :
    List (Nat × String) → LoopOut
  | [] => ⟨store, [], []⟩
  | (ln, ptext) :: rest =>
    match processOccurrence dryRun ignoreSentLog absPath sentIds now logNow
        (execOk callIdx) store ln ptext with
    | (store2, calls, outcome) =>
      let tail := processLoop dryRun ignoreSentLog absPath sentIds now logNow
        execOk store2 (callIdx + calls.length) rest
      ⟨tail.store, calls ++ tail.calls, outcome :: tail.outcomes⟩

structure RemRunResult where
  store : LedgerStore
  calls : List RemAction
  outcomes : List (Nat × RemOutcome)
  aborted : Option PyErr

/-- process_file (lines 509-584).  Scanning, the log reset (guarded by
non-dry-run), the single load of the sent log (skipped when the log was
reset), the skip-set construction, and the per-occurrence loop.  Exceptions
from the load and the skip-set construction are outside the try and abort
the run. -/
def process_file (dryRun verbose ignoreSentLog resetLog : Bool)
    (absPath text : String) (now logNow : PyDateTime) (execOk : Nat → Bool)
    (store0 : LedgerStore) : RemRunResult :=
  let _ := verbose
  let tags := find_tags_in_text text
  if tags.isEmpty then ⟨store0, [], [], none⟩
  else
    let store1 := if resetLog ∧ dryRun = false then LedgerStore.missing else store0
    match (if resetLog then .ok [] else _load_sent_log store1 :
        Except PyErr (List Json)) with
    | .error e => ⟨store1, [], [], some e⟩
    | .ok sentLog =>
      match sentIdsOf sentLog with
      | .error e => ⟨store1, [], [], some e⟩
      | .ok sentIds =>
        let r := processLoop dryRun ignoreSentLog absPath sentIds now logNow
          execOk store1 0 tags
        ⟨r.store, r.calls, r.outcomes, none⟩

/-! ## The imessage pipeline (imessage_send.py main, lines 179-218)

Dry-run is the absence of the yes flag.  The sent-markers log (a line per
marker under .meta/imessage_sent.log) is modelled as an optional list of
markers, none when the file is missing.  ensure_meta_log creates a missing
log before anything else; the reset flag then truncates it, in both cases
regardless of dry-run; parse_tag_params is called outside any try, so a
malformed segment raises and aborts the whole run. -/

/-- Phase one of main (lines 192-205): build the to-send list, skipping
occurrences with a missing or empty to or message (with a stderr line) and
occurrences whose path-and-line marker was already sent.  A ValueError from
parse_tag_params is uncaught. -/
def imessagePhase1 (sentMarkers : List String) (absPath : String) :
    List (Nat × String) → Except String (List (String × String × String))
  | [] => .ok []
  | (ln, ptext) :: rest =>
    match parse_tag_params ptext with
    | .error e => .error e
    | .ok params =>
      match pget params "to", pget params "message" with
      | some t, some m =>
        if t = "" ∨ m = "" then imessagePhase1 sentMarkers absPath rest
        else
          let marker := "@source:" ++ absPath ++ ":" ++ toString ln
          if marker ∈ sentMarkers then imessagePhase1 sentMarkers absPath rest
          else
            match imessagePhase1 sentMarkers absPath rest with
            | .error e => .error e
            | .ok others => .ok ((marker, t, m) :: others)
      | _, _ => imessagePhase1 sentMarkers absPath rest

/-- Phase two of main (lines 211-218): with the yes flag each entry is sent
and its marker appended; an osascript failure raises out of the loop
(uncaught), keeping markers appended so far.  Without the yes flag the entry
is only printed.  Returns calls made, markers appended, and the abort, if
any. -/
def imessagePhase2 (execOk : Nat → Bool) (yes : Bool) :
    Nat → List (String × String × String) →
    List (String × String) × List String × Option String
  | _, [] => ([], [], none)
  | idx, (marker, t, m) :: rest =>
    if yes then
      if execOk idx then
        match imessagePhase2 execOk yes (idx + 1) rest with
        | (cs, ms, ab) => ((t, m) :: cs, marker :: ms, ab)
      else ([(t, m)], [], some "osascript failed")
    else imessagePhase2 execOk yes idx rest

structure IMsgRunResult where
  log : Option (List String)
  calls : List (String × String)
  aborted : Option String

def imessage_main (yes verbose resetLog : Bool) (absPath text : String)
    (execOk : Nat → Bool) (log0 : Option (List String)) : IMsgRunResult :=
  let _ := verbose
  let tags := imessage_find_tags_in_text text
  if tags.isEmpty then ⟨log0, [], none⟩
  else
    let base := if resetLog then [] else log0.getD []
    match imessagePhase1 base absPath tags with
    | .error e => ⟨some base, [], some e⟩
    | .ok toSend =>
      match imessagePhase2 execOk yes 0 toSend with
      | (calls, markers, ab) => ⟨some (base ++ markers), calls, ab⟩

/-! ## A parameter re-serializer, for the Scanner-to-Parser round trip -/

/-- Modelled from the spec: the repository contains no re-serializer for the
parameters of an Action (Actions are rendered to AppleScript only), yet the
round-trip property of section 8 parses "the re-serialized parameters from an
Action" back through the Parser.  Following section 4.2, a message value is
wrapped in double quotes with the four escape sequences for backslash, double
quote, newline and tab. -/
def escapeMsgChar (c : Char) : List Char :=
  if c = '\\' then ['\\', '\\']
  else if c = '"' then ['\\', '"']
  else if c = '\n' then ['\\', 'n']
  else if c = '\t' then ['\\', 't']
  else [c]

/-- Modelled from the spec: the re-serialized message parameter of an Action,
message equals the quoted escaped value. -/
def serializeMessageParam (msg : String) : String :=
  String.mk ("message=".data ++ '"' :: (msg.data.map escapeMsgChar).flatten ++ ['"'])

/-- The condition under which _compute_stable_marker takes the hash-fallback
path: the id field is absent or empty (falsy). -/
def takesFallback (params : Params) : Prop :=
  pget params "id" = none ∨ pget params "id" = some ""

/-- The message text the fallback hash sees: params.get with default empty. -/
def msgOf (params : Params) : String := (pget params "message").getD ""

/-- The reference instant 2025-01-01T10:00 used by the spec examples. -/
def refNow : PyDateTime := ⟨2025, 1, 1, 10, 0, 0, 0⟩

/-! ######################################################################
## Theorems
###################################################################### -/

/-- hashlib.sha1 sanity check against the standard test vector. -/
theorem sha1_abc_vector :
    String.mk (sha1HexChars (utf8Bytes "abc")) =
      "a9993e364706816aba3e25717850c26c9cd0d89d" := by
  decide

/-! ### Claim C9: loading the ledger -/

/-- C9 counterexample: the claim says every persisted state of the store -
missing, corrupt or of the wrong shape - loads as the empty ledger instead of
raising.  A store whose bytes are not valid UTF-8 is corrupt, yet opening it
in text mode raises UnicodeDecodeError, which _load_sent_log does not catch:
the load raises instead of returning empty. -/
theorem c9_counterexample :
    _load_sent_log LedgerStore.undecodable = .error PyErr.unicodeDecodeError := by
  rfl

/-- C9 amended: for every persisted state of the store other than one whose
raw bytes fail UTF-8 decoding, _load_sent_log returns instead of raising:
a missing file, a JSON-decode failure and a parsed non-list all yield the
empty ledger, and a well-formed list yields exactly its recorded entries. -/
theorem c9_amended (s : LedgerStore) (h : s ≠ LedgerStore.undecodable) :
    (∃ entries, _load_sent_log s = .ok entries) ∧
    (s = .missing ∨ s = .unparseable → _load_sent_log s = .ok []) ∧
    (∀ j, s = .json j → (∀ es, j ≠ .arr es) → _load_sent_log s = .ok []) ∧
    (∀ es, s = .json (.arr es) → _load_sent_log s = .ok es) := by
  refine ⟨?_, ?_, ?_, ?_⟩
  · cases s with
    | missing => exact ⟨[], rfl⟩
    | undecodable => exact absurd rfl h
    | unparseable => exact ⟨[], rfl⟩
    | json j =>
      cases j with
      | arr es => exact ⟨es, rfl⟩
      | obj f => exact ⟨[], rfl⟩
      | other => exact ⟨[], rfl⟩
  · rintro (rfl | rfl) <;> rfl
  · rintro j rfl hj
    cases j with
    | arr es => exact absurd rfl (hj es)
    | obj f => rfl
    | other => rfl
  · rintro es rfl
    rfl

/-- C9 witness: the amended theorem applied to a well-formed one-entry store
and to an unparseable store. -/
theorem c9_witness :
    (LedgerStore.json (.arr [.obj [("id", "x1")]]) ≠ LedgerStore.undecodable ∧
      _load_sent_log (.json (.arr [.obj [("id", "x1")]])) = .ok [.obj [("id", "x1")]]) ∧
    (LedgerStore.unparseable ≠ LedgerStore.undecodable ∧
      _load_sent_log .unparseable = .ok []) := by
  refine ⟨⟨fun h => ?_, ?_⟩, ⟨fun h => ?_, ?_⟩⟩
  · exact LedgerStore.noConfusion h
  · exact (c9_amended (.json (.arr [.obj [("id", "x1")]]))
      (fun h => LedgerStore.noConfusion h)).2.2.2 [.obj [("id", "x1")]] rfl
  · exact LedgerStore.noConfusion h
  · exact ((c9_amended .unparseable (fun h => LedgerStore.noConfusion h)).2.1) (Or.inr rfl)

/-! ### Claim C1: dry-run side effects -/

lemma processOccurrence_dryRun (ignoreSentLog : Bool) (absPath : String)
    (sentIds : List String) (now logNow : PyDateTime) (execOk : Bool)
    (store : LedgerStore) (ln : Nat) (ptext : String) :
    (processOccurrence true ignoreSentLog absPath sentIds now logNow execOk
        store ln ptext).1 = store ∧
    (processOccurrence true ignoreSentLog absPath sentIds now logNow execOk
        store ln ptext).2.1 = [] := by
  unfold processOccurrence
  cases evalOccurrence ignoreSentLog absPath sentIds now logNow ln ptext with
  | error e => exact ⟨rfl, rfl⟩
  | ok oa =>
    cases oa with
    | skip i => exact ⟨rfl, rfl⟩
    | send a entry => exact ⟨rfl, rfl⟩

lemma processLoop_dryRun (ignoreSentLog : Bool) (absPath : String)
    (sentIds : List String) (now logNow : PyDateTime) (execOk : Nat → Bool) :
    ∀ (tags : List (Nat × String)) (store : LedgerStore) (callIdx : Nat),
    (processLoop true ignoreSentLog absPath sentIds now logNow execOk store
        callIdx tags).store = store ∧
    (processLoop true ignoreSentLog absPath sentIds now logNow execOk store
        callIdx tags).calls = [] := by
  intro tags
  induction tags with
  | nil => exact fun store callIdx => ⟨rfl, rfl⟩
  | cons t rest ih =>
    intro store callIdx
    obtain ⟨ln, ptext⟩ := t
    have hocc := processOccurrence_dryRun ignoreSentLog absPath sentIds now
      logNow (execOk callIdx) store ln ptext
    rcases hpo : processOccurrence true ignoreSentLog absPath sentIds now logNow
        (execOk callIdx) store ln ptext with ⟨s2, cs, oc⟩
    rw [hpo] at hocc
    obtain ⟨hs2, hcs⟩ := hocc
    simp only at hs2 hcs
    simp only [processLoop, hpo, hs2, hcs]
    have ihr := ih store (callIdx + List.length ([] : List RemAction))
    exact ⟨ihr.1, by simpa using ihr.2⟩

lemma imessagePhase2_dry (execOk : Nat → Bool) :
    ∀ (idx : Nat) (l : List (String × String × String)),
    imessagePhase2 execOk false idx l = ([], [], none) := by
  intro idx l
  induction l generalizing idx with
  | nil => rfl
  | cons e rest ih =>
    obtain ⟨marker, t, m⟩ := e
    simp only [imessagePhase2, if_neg (by simp : ¬(false = true))]
    exact ih idx

/-- C1 counterexample: the claim asserts that with dry-run enabled the
sent-log file is byte-identical before and after every run, in particular
never truncated by reset.  In imessage_send.py the reset truncation
(main line 189) is not guarded by the yes flag, so a dry run with reset-log
truncates a nonempty sent-markers log. -/
theorem c1_counterexample :
    (imessage_main false false true "/w.md"
        "@imessage(to=\"+14155551234\", message=\"hi\")" (fun _ => true)
        (some ["@source:/w.md:1"])).log = some [] ∧
    (imessage_main false false true "/w.md"
        "@imessage(to=\"+14155551234\", message=\"hi\")" (fun _ => true)
        (some ["@source:/w.md:1"])).calls = [] ∧
    some ([] : List String) ≠ some ["@source:/w.md:1"] := by
  refine ⟨by rfl, by rfl, by decide⟩

/-- C1 amended: dry-run never invokes the Action Executor and never appends
to the ledger, in both tools.  In reminders_cli.py process_file the ledger
store is fully untouched (the reset is guarded by non-dry-run).  In
imessage_send.py main, however, a dry run still creates a missing sent-log
file and, when reset-log is passed, truncates it: the final log is empty when
reset was requested and is otherwise the loaded content, created empty when
missing; no marker is ever appended and osascript is never invoked. -/
theorem c1_amended :
    (∀ (verbose ignoreSentLog resetLog : Bool) (absPath text : String)
        (now logNow : PyDateTime) (execOk : Nat → Bool) (store : LedgerStore),
      (process_file true verbose ignoreSentLog resetLog absPath text now logNow
          execOk store).store = store ∧
      (process_file true verbose ignoreSentLog resetLog absPath text now logNow
          execOk store).calls = []) ∧
    (∀ (verbose resetLog : Bool) (absPath text : String) (execOk : Nat → Bool)
        (log0 : Option (List String)),
      (imessage_main false verbose resetLog absPath text execOk log0).calls = [] ∧
      (imessage_main false verbose resetLog absPath text execOk log0).log =
        (if (imessage_find_tags_in_text text).isEmpty then log0
         else some (if resetLog then [] else log0.getD []))) := by
  constructor
  · intro verbose ignoreSentLog resetLog absPath text now logNow execOk store
    unfold process_file
    simp only
    split
    · exact ⟨rfl, rfl⟩
    · simp only [show ((true : Bool) = false) = False by simp, and_false, if_false]
      cases (if resetLog = true then .ok [] else _load_sent_log store :
          Except PyErr (List Json)) with
      | error e => simp
      | ok sentLog =>
        simp only []
        cases sentIdsOf sentLog with
        | error e => simp
        | ok sentIds =>
          simpa using processLoop_dryRun ignoreSentLog absPath sentIds now logNow
            execOk (find_tags_in_text text) store 0
  · intro verbose resetLog absPath text execOk log0
    unfold imessage_main
    simp only
    split
    · next hempty => simp [hempty]
    · next hempty =>
      simp only [Bool.not_eq_true] at hempty
      cases imessagePhase1 (if resetLog then [] else log0.getD []) absPath
          (imessage_find_tags_in_text text) with
      | error e => simp [hempty]
      | ok toSend =>
        simp [hempty, imessagePhase2_dry execOk 0 toSend]

/-! ### Claim C2: the explicit-id skip policy -/

/-- Inversion of the per-occurrence decision: a successful decision on a
parameter set with an explicit id is the logged skip exactly under the
sent-log condition, and a decision on a parameter set without an id is
always a send. -/
lemma evalParsedOccurrence_id_cases (ignore : Bool) (absPath : String)
    (sentIds : List String) (now logNow : PyDateTime) (ln : Nat)
    (params : Params) (res : OccAction)
    (h : evalParsedOccurrence ignore absPath sentIds now logNow ln params = .ok res) :
    (∀ i, pget params "id" = some i →
      ((res = .skip i ∧ i ≠ "" ∧ ignore = false ∧ i ∈ sentIds) ∨
       ((∃ a e, res = .send a e) ∧ ¬(i ≠ "" ∧ ignore = false ∧ i ∈ sentIds)))) ∧
    (pget params "id" = none → ∃ a e, res = .send a e) := by
  unfold evalParsedOccurrence at h
  split at h
  case h_2 => exact absurd h (by simp)
  case h_1 name atExpr hma hmb =>
    split at h
    · exact absurd h (by simp)
    · split at h
      · exact absurd h (by simp)
      · split at h
        · exact absurd h (by simp)
        · split at h
          · exact absurd h (by simp)
          · split at h
            case h_1 i hid =>
              constructor
              · intro j hj
                rw [hid] at hj
                injection hj with hj
                subst hj
                split at h
                next hc =>
                  left
                  injection h with h
                  exact ⟨h.symm, hc⟩
                next hc =>
                  right
                  injection h with h
                  exact ⟨⟨_, _, h.symm⟩, hc⟩
              · intro hnone
                rw [hid] at hnone
                exact Option.noConfusion hnone
            case h_2 hid =>
              refine ⟨fun j hj => ?_, fun _ => ?_⟩
              · rw [hid] at hj
                exact Option.noConfusion hj
              · injection h with h
                exact ⟨_, _, h.symm⟩

/-- With a successful parse, the occurrence decision factors through the
parsed stage. -/
lemma evalOccurrence_parsed (ignore : Bool) (absPath : String)
    (sentIds : List String) (now logNow : PyDateTime) (ln : Nat)
    (ptext : String) (params : Params)
    (hp : parse_tag_params ptext = .ok params) :
    evalOccurrence ignore absPath sentIds now logNow ln ptext =
      evalParsedOccurrence ignore absPath sentIds now logNow ln params := by
  unfold evalOccurrence
  rw [hp]

/-- C2: an occurrence with an explicit id already present in the loaded skip
set, run without the ignore-ledger flag, is skipped entirely - the ledger
store is untouched and no executor call is made; and a successfully decided
occurrence with an explicit id that is absent from the skip set (or with the
ignore-ledger flag) is a send whose non-dry-run processing invokes the
executor exactly once. -/
theorem c2_theorem :
    (∀ (dryRun : Bool) (absPath : String) (sentIds : List String)
        (now logNow : PyDateTime) (execOk : Bool) (store : LedgerStore)
        (ln : Nat) (ptext : String) (params : Params) (i : String),
      parse_tag_params ptext = .ok params → pget params "id" = some i →
      i ≠ "" → i ∈ sentIds →
      (processOccurrence dryRun false absPath sentIds now logNow execOk store
          ln ptext).1 = store ∧
      (processOccurrence dryRun false absPath sentIds now logNow execOk store
          ln ptext).2.1 = []) ∧
    (∀ (ignore : Bool) (absPath : String) (sentIds : List String)
        (now logNow : PyDateTime) (execOk : Bool) (store : LedgerStore)
        (ln : Nat) (ptext : String) (params : Params) (res : OccAction)
        (i : String),
      parse_tag_params ptext = .ok params → pget params "id" = some i →
      (i ∉ sentIds ∨ ignore = true) →
      evalOccurrence ignore absPath sentIds now logNow ln ptext = .ok res →
      ∃ a entry, res = .send a entry ∧
        (processOccurrence false ignore absPath sentIds now logNow execOk store
            ln ptext).2.1 = [a]) := by
  constructor
  · intro dryRun absPath sentIds now logNow execOk store ln ptext params i hp
      hid hne hmem
    unfold processOccurrence
    cases hev : evalOccurrence false absPath sentIds now logNow ln ptext with
    | error e => simp
    | ok res =>
      rw [evalOccurrence_parsed false absPath sentIds now logNow ln ptext
        params hp] at hev
      have hc := (evalParsedOccurrence_id_cases false absPath sentIds now
        logNow ln params res hev).1 i hid
      cases hc with
      | inl hskip =>
        obtain ⟨hres, -⟩ := hskip
        subst hres
        simp
      | inr hsend =>
        exact absurd ⟨hne, rfl, hmem⟩ hsend.2
  · intro ignore absPath sentIds now logNow execOk store ln ptext params res i
      hp hid hcond hev
    have hpe := hev
    rw [evalOccurrence_parsed ignore absPath sentIds now logNow ln ptext
      params hp] at hpe
    have hc := (evalParsedOccurrence_id_cases ignore absPath sentIds now
      logNow ln params res hpe).1 i hid
    cases hc with
    | inl hskip =>
      obtain ⟨-, -, hig, hmem⟩ := hskip
      cases hcond with
      | inl hnotmem => exact absurd hmem hnotmem
      | inr htrue => rw [htrue] at hig; exact Bool.noConfusion hig
    | inr hsend =>
      obtain ⟨⟨a, entry, hres⟩, -⟩ := hsend
      refine ⟨a, entry, hres, ?_⟩
      subst hres
      unfold processOccurrence
      rw [hev]
      simp only
      cases execOk with
      | true =>
        cases appendToStore store entry with
        | ok store2 => simp
        | error err => simp
      | false => simp

/-- C2 witness: a logged explicit id is skipped with no call and no store
change, and the same tag against an empty skip set makes exactly one call. -/
theorem c2_witness :
    ((processOccurrence false false "/w.md" ["x1"] refNow refNow true
        .missing 1 "message=\"Hi\", at=\"+30m\", id=\"x1\"").1 = .missing ∧
     (processOccurrence false false "/w.md" ["x1"] refNow refNow true
        .missing 1 "message=\"Hi\", at=\"+30m\", id=\"x1\"").2.1 = []) ∧
    (processOccurrence false false "/w.md" [] refNow refNow true
        .missing 1 "message=\"Hi\", at=\"+30m\", id=\"x1\"").2.1.length = 1 := by
  constructor
  · exact c2_theorem.1 false "/w.md" ["x1"] refNow refNow true
      LedgerStore.missing 1 "message=\"Hi\", at=\"+30m\", id=\"x1\"" _ "x1"
      rfl rfl (by decide) (by decide)
  · obtain ⟨a, entry, hres, hcalls⟩ := c2_theorem.2 false "/w.md" []
      refNow refNow true LedgerStore.missing 1
      "message=\"Hi\", at=\"+30m\", id=\"x1\"" _ _ "x1" rfl rfl
      (Or.inl (by decide)) rfl
    rw [hcalls]
    rfl

/-! ### Claim C6: per-occurrence failure isolation -/

/-- Every branch of the per-occurrence processing tags its outcome with the
source line number of the occurrence. -/
lemma processOccurrence_line (dryRun ignore : Bool) (absPath : String)
    (sentIds : List String) (now logNow : PyDateTime) (execOk : Bool)
    (store : LedgerStore) (ln : Nat) (ptext : String) :
    (processOccurrence dryRun ignore absPath sentIds now logNow execOk store
        ln ptext).2.2.1 = ln := by
  unfold processOccurrence
  cases evalOccurrence ignore absPath sentIds now logNow ln ptext with
  | error e => rfl
  | ok oa =>
    cases oa with
    | skip i => rfl
    | send a entry =>
      simp only
      split
      · rfl
      · split
        · cases appendToStore store entry with
          | ok s2 => rfl
          | error err => rfl
        · rfl

/-- C6 counterexample: the claim says a malformed key=value segment is
reported with its line number and processing continues with the next
occurrence.  In imessage_send.py main, parse_tag_params is called outside any
try block, so the malformed first tag aborts the whole run: the valid tag on
line two is never dispatched even with the yes flag and a successful
executor. -/
theorem c6_counterexample :
    (imessage_main true false false "/w.md"
        "@imessage(bad)\n@imessage(to=\"+14155551234\", message=\"hi\")"
        (fun _ => true) (some [])).aborted =
      some "Invalid parameter segment (expected key=value): bad" ∧
    (imessage_main true false false "/w.md"
        "@imessage(bad)\n@imessage(to=\"+14155551234\", message=\"hi\")"
        (fun _ => true) (some [])).calls = [] := by
  exact ⟨rfl, rfl⟩

/-- C6 amended: in reminders_cli.py process_file the isolation holds in
full: the loop yields exactly one outcome per occurrence, in source order,
each tagged with its source line number, and an occurrence whose evaluation
fails leaves the ledger store and the executor calls unchanged while the
remaining occurrences are processed as if it were absent.  In
imessage_send.py main, an occurrence with a missing to or message field is
skipped and processing continues, but a malformed key=value segment raises
an uncaught ValueError that aborts the remaining occurrences. -/
theorem c6_amended :
    (∀ (dryRun ignore : Bool) (absPath : String) (sentIds : List String)
        (now logNow : PyDateTime) (execOk : Nat → Bool) (store : LedgerStore)
        (callIdx : Nat) (tags : List (Nat × String)),
      (processLoop dryRun ignore absPath sentIds now logNow execOk store
          callIdx tags).outcomes.map Prod.fst = tags.map Prod.fst) ∧
    (∀ (dryRun ignore : Bool) (absPath : String) (sentIds : List String)
        (now logNow : PyDateTime) (execOk : Nat → Bool) (store : LedgerStore)
        (callIdx ln : Nat) (ptext : String) (rest : List (Nat × String))
        (e : String),
      evalOccurrence ignore absPath sentIds now logNow ln ptext = .error e →
      processLoop dryRun ignore absPath sentIds now logNow execOk store
          callIdx ((ln, ptext) :: rest) =
        ⟨(processLoop dryRun ignore absPath sentIds now logNow execOk store
            callIdx rest).store,
         (processLoop dryRun ignore absPath sentIds now logNow execOk store
            callIdx rest).calls,
         (ln, .failed ("Error on line " ++ toString ln ++ ": " ++ e)) ::
           (processLoop dryRun ignore absPath sentIds now logNow execOk store
              callIdx rest).outcomes⟩) ∧
    (∀ (sentMarkers : List String) (absPath : String) (ln : Nat)
        (ptext : String) (rest : List (Nat × String)) (params : Params),
      parse_tag_params ptext = .ok params → pget params "to" = none →
      imessagePhase1 sentMarkers absPath ((ln, ptext) :: rest) =
        imessagePhase1 sentMarkers absPath rest) := by
  refine ⟨?_, ?_, ?_⟩
  · intro dryRun ignore absPath sentIds now logNow execOk store callIdx tags
    induction tags generalizing store callIdx with
    | nil => rfl
    | cons t rest ih =>
      obtain ⟨ln, ptext⟩ := t
      have hline := processOccurrence_line dryRun ignore absPath sentIds now
        logNow (execOk callIdx) store ln ptext
      rcases hpo : processOccurrence dryRun ignore absPath sentIds now logNow
          (execOk callIdx) store ln ptext with ⟨s2, cs, oc⟩
      rw [hpo] at hline
      simp only at hline
      simp only [processLoop, hpo, List.map_cons]
      rw [ih s2 (callIdx + cs.length)]
      obtain ⟨ocl, ocr⟩ := oc
      simp only at hline
      rw [hline]
  · intro dryRun ignore absPath sentIds now logNow execOk store callIdx ln
      ptext rest e hev
    have hpo : processOccurrence dryRun ignore absPath sentIds now logNow
        (execOk callIdx) store ln ptext =
        (store, [],
          (ln, .failed ("Error on line " ++ toString ln ++ ": " ++ e))) := by
      unfold processOccurrence
      rw [hev]
    simp only [processLoop, hpo]
    simp
  · intro sentMarkers absPath ln ptext rest params hp hto
    simp only [imessagePhase1, hp, hto]

/-- C6 witness: per-line outcomes and failure isolation at a concrete
two-occurrence run, the first malformed, and the imessage missing-field skip
at a concrete tag. -/
theorem c6_witness :
    ((processLoop false false "/w.md" [] refNow refNow (fun _ => true)
        .missing 0 [(7, "oops"), (8, "message=\"Hi\", at=\"+30m\"")]).outcomes.map
          Prod.fst =
      List.map Prod.fst [(7, "oops"), (8, "message=\"Hi\", at=\"+30m\"")]) ∧
    (processLoop false false "/w.md" [] refNow refNow (fun _ => true)
        .missing 0 [(7, "oops")] =
      ⟨(processLoop false false "/w.md" [] refNow refNow (fun _ => true)
          .missing 0 []).store,
       (processLoop false false "/w.md" [] refNow refNow (fun _ => true)
          .missing 0 []).calls,
       (7, .failed ("Error on line " ++ toString 7 ++ ": " ++
          "Invalid parameter segment (expected key=value): oops")) ::
         (processLoop false false "/w.md" [] refNow refNow (fun _ => true)
            .missing 0 []).outcomes⟩) ∧
    imessagePhase1 [] "/w.md" [(3, "message=\"hi\"")] =
      imessagePhase1 [] "/w.md" [] := by
  refine ⟨?_, ?_, ?_⟩
  · exact c6_amended.1 false false "/w.md" [] refNow refNow (fun _ => true)
      .missing 0 [(7, "oops"), (8, "message=\"Hi\", at=\"+30m\"")]
  · exact c6_amended.2.1 false false "/w.md" [] refNow refNow (fun _ => true)
      .missing 0 7 "oops" [] "Invalid parameter segment (expected key=value): oops" rfl
  · exact c6_amended.2.2 [] "/w.md" 3 "message=\"hi\"" [] [("message", "hi")]
      rfl rfl

/-! ### Claim C7: temporal resolution -/

/-- C7: parse_at_expression is a pure function of the expression and the
explicit reference now.  A relative offset adds to now (symbolically for
every now, and concretely on the spec example); today and tomorrow replace
the time of day with seconds and microseconds zeroed, tomorrow after adding
one day; the absolute formats parse as written; and an expression matching
none of the grammar rules yields an error, never a default. -/
theorem c7_theorem :
    (∀ now, parse_at_expression "+30m" now = .ok (dtAddSeconds now 1800)) ∧
    parse_at_expression "+30m" refNow = .ok ⟨2025, 1, 1, 10, 30, 0, 0⟩ ∧
    (∀ now, parse_at_expression "today 09:30" now =
      .ok { now with hour := 9, minute := 30, second := 0, micro := 0 }) ∧
    parse_at_expression "today 09:30" refNow = .ok ⟨2025, 1, 1, 9, 30, 0, 0⟩ ∧
    (∀ now, parse_at_expression "tomorrow 09:00" now =
      .ok { dtAddSeconds now 86400 with
              hour := 9, minute := 0, second := 0, micro := 0 }) ∧
    parse_at_expression "tomorrow 09:00" refNow = .ok ⟨2025, 1, 2, 9, 0, 0, 0⟩ ∧
    (∀ now, parse_at_expression "2025-08-16 09:30" now =
      .ok ⟨2025, 8, 16, 9, 30, 0, 0⟩) ∧
    (∀ now, parse_at_expression "2025-08-16 09:30:05" now =
      .ok ⟨2025, 8, 16, 9, 30, 5, 0⟩) ∧
    (∀ (e : String) (now : PyDateTime),
      matchRelative (pyStripL e.data) = none →
      matchDayTime "today".data (pyStripL e.data) = none →
      matchDayTime "tomorrow".data (pyStripL e.data) = none →
      strptimeDateTime false (pyStripL e.data) = none →
      strptimeDateTime true (pyStripL e.data) = none →
      parse_at_expression e now = .error ("Unrecognized at expression: " ++ e)) := by
  refine ⟨fun now => rfl, by decide, fun now => rfl, by decide, fun now => rfl,
    by decide, fun now => rfl, fun now => rfl, ?_⟩
  intro e now h1 h2 h3 h4 h5
  unfold parse_at_expression
  simp only [h1, h2, h3, h4, h5]

/-- C7 witness: the failure conjunct applied to the unmatched expression
noon. -/
theorem c7_witness :
    parse_at_expression "noon" refNow =
      .error ("Unrecognized at expression: " ++ "noon") := by
  exact c7_theorem.2.2.2.2.2.2.2.2 "noon" refNow rfl rfl rfl rfl rfl

/-! ### Claims C3, C10, C4: the stable marker -/

/-- On the hash-fallback path the marker is the absolute path, a hash sign,
and the truncated digest of the message. -/
lemma marker_takesFallback (absPath : String) (params : Params)
    (h : takesFallback params) :
    _compute_stable_marker absPath params =
      "@source:" ++ absPath ++ "#" ++ markerDigest absPath (msgOf params) := by
  cases h with
  | inl hnone =>
    unfold _compute_stable_marker
    rw [hnone]
    rfl
  | inr hempty =>
    unfold _compute_stable_marker
    rw [hempty]
    rfl

/-- The truncated digest has exactly twelve characters. -/
lemma markerDigest_length (p m : String) : (markerDigest p m).length = 12 := by
  show ((sha1HexChars (markerHashInput p m)).take 12).length = 12
  rw [List.length_take]
  unfold sha1HexChars
  simp

/-- String append is left cancellative. -/
lemma string_append_left_cancel (s a b : String) : s ++ a = s ++ b ↔ a = b := by
  constructor
  · intro h
    have hd := congrArg String.data h
    rw [String.data_append, String.data_append] at hd
    have hd2 := List.append_cancel_left hd
    cases a with
    | mk da =>
      cases b with
      | mk db => exact congrArg String.mk hd2
  · intro h
    rw [h]

/-- The hex digest depends on the input only through the digest number. -/
lemma sha1HexChars_congr (a b : List Nat) (h : sha1Nat a = sha1Nat b) :
    sha1HexChars a = sha1HexChars b := by
  unfold sha1HexChars
  rw [h]

/-- C3 counterexample: the claim says an occurrence that supplies an explicit
id field gets the identity marker for that id.  Supplying the empty id is
falsy in Python, so the code takes the hash-fallback path instead: the
identity is the prefixed path-and-digest form, not the id marker. -/
theorem c3_counterexample :
    _compute_stable_marker "/w.md" [("id", "")] =
      "@source:" ++ "/w.md" ++ "#" ++ markerDigest "/w.md" "" ∧
    _compute_stable_marker "/w.md" [("id", "")] ≠ "@source:id:" := by
  constructor
  · exact marker_takesFallback "/w.md" [("id", "")] (Or.inr rfl)
  · intro h
    rw [marker_takesFallback "/w.md" [("id", "")] (Or.inr rfl)] at h
    have hlen := congrArg String.length h
    rw [String.length_append, String.length_append, String.length_append,
      markerDigest_length "/w.md" (msgOf [("id", "")])] at hlen
    exact absurd hlen (by decide)

/-- C3 amended: _compute_stable_marker is a pure function of the absolute
path and the parameters.  When the parameters supply a nonempty explicit id
the identity is the id marker, independent of the file path (and no line
number is even an input); an empty or absent id takes the fallback, which is
the literal at-source prefix, the absolute path, a hash sign and a digest of
exactly twelve hex characters determined by the path and the message text
alone. -/
theorem c3_amended :
    (∀ (absPath : String) (params : Params) (i : String),
      pget params "id" = some i → i ≠ "" →
      _compute_stable_marker absPath params = "@source:id:" ++ i) ∧
    (∀ (absPath absPath2 : String) (params : Params) (i : String),
      pget params "id" = some i → i ≠ "" →
      _compute_stable_marker absPath params =
        _compute_stable_marker absPath2 params) ∧
    (∀ (absPath : String) (params : Params), takesFallback params →
      _compute_stable_marker absPath params =
        "@source:" ++ absPath ++ "#" ++ markerDigest absPath (msgOf params)) ∧
    (∀ (absPath m : String), (markerDigest absPath m).length = 12) := by
  have hid : ∀ (absPath : String) (params : Params) (i : String),
      pget params "id" = some i → i ≠ "" →
      _compute_stable_marker absPath params = "@source:id:" ++ i := by
    intro absPath params i h hne
    unfold _compute_stable_marker
    rw [h]
    simp [hne]
  refine ⟨hid, ?_, marker_takesFallback, markerDigest_length⟩
  intro absPath absPath2 params i h hne
  rw [hid absPath params i h hne, hid absPath2 params i h hne]

/-- C3 witness: the amended theorem at concrete inputs - a nonempty id, the
same id under two different paths, and a fallback parameter set. -/
theorem c3_witness :
    _compute_stable_marker "/w.md" [("message", "Hi"), ("id", "draft")] =
      "@source:id:" ++ "draft" ∧
    _compute_stable_marker "/a.md" [("message", "Hi"), ("id", "draft")] =
      _compute_stable_marker "/b.md" [("message", "Hi"), ("id", "draft")] ∧
    _compute_stable_marker "/w.md" [("message", "Call")] =
      "@source:" ++ "/w.md" ++ "#" ++
        markerDigest "/w.md" (msgOf [("message", "Call")]) := by
  refine ⟨?_, ?_, ?_⟩
  · exact c3_amended.1 "/w.md" [("message", "Hi"), ("id", "draft")] "draft"
      rfl (by decide)
  · exact c3_amended.2.1 "/a.md" "/b.md" [("message", "Hi"), ("id", "draft")]
      "draft" rfl (by decide)
  · exact c3_amended.2.2.1 "/w.md" [("message", "Call")] (Or.inl rfl)

/-- C10: two parameter sets on the fallback path with the same message text
get the same identity from the same absolute path, whatever their other
fields - in particular two tags with identical messages but different at
expressions collide on the same fallback identity. -/
theorem c10_theorem (absPath : String) (p1 p2 : Params)
    (h1 : takesFallback p1) (h2 : takesFallback p2)
    (hm : msgOf p1 = msgOf p2) :
    _compute_stable_marker absPath p1 = _compute_stable_marker absPath p2 := by
  rw [marker_takesFallback absPath p1 h1, marker_takesFallback absPath p2 h2, hm]

/-- C10 witness: identical messages, different at, list and flagged fields,
equal identities. -/
theorem c10_witness :
    _compute_stable_marker "/w.md" [("message", "Call Sean"), ("at", "today 10:00")] =
      _compute_stable_marker "/w.md"
        [("message", "Call Sean"), ("at", "+30m"), ("list", "Work"), ("flagged", "true")] := by
  exact c10_theorem "/w.md" _ _ (Or.inl rfl) (Or.inl rfl) rfl

/-! ### Claim C4: truncated-hash collisions -/

lemma sha1Chunk_lt (st : W5) (chunk : List Nat) :
    (sha1Chunk st chunk).1 < 4294967296 ∧
    (sha1Chunk st chunk).2.1 < 4294967296 ∧
    (sha1Chunk st chunk).2.2.1 < 4294967296 ∧
    (sha1Chunk st chunk).2.2.2.1 < 4294967296 ∧
    (sha1Chunk st chunk).2.2.2.2 < 4294967296 := by
  obtain ⟨h0, h1, h2, h3, h4⟩ := st
  unfold sha1Chunk
  rcases sha1Rounds 0 (extendSchedule (bytesToWords chunk).reverse 64)
    (h0, h1, h2, h3, h4) with ⟨a, b, c, d, e⟩
  simp only [w32]
  omega

lemma foldl_sha1Chunk_lt (l : List (List Nat)) :
    ∀ init : W5, l ≠ [] →
    ((l.foldl sha1Chunk init).1 < 4294967296 ∧
     (l.foldl sha1Chunk init).2.1 < 4294967296 ∧
     (l.foldl sha1Chunk init).2.2.1 < 4294967296 ∧
     (l.foldl sha1Chunk init).2.2.2.1 < 4294967296 ∧
     (l.foldl sha1Chunk init).2.2.2.2 < 4294967296) := by
  induction l with
  | nil => intro init h; exact absurd rfl h
  | cons c rest ih =>
    intro init _
    cases hr : rest with
    | nil => simpa using sha1Chunk_lt init c
    | cons r rs =>
      rw [List.foldl_cons]
      rw [← hr]
      exact ih (sha1Chunk init c) (by rw [hr]; exact List.cons_ne_nil r rs)

lemma chunks64_sha1Pad_ne_nil (msg : List Nat) :
    chunks64 (sha1Pad msg) ≠ [] := by
  unfold sha1Pad chunks64
  cases hm : msg with
  | nil => simp [chunks64Go]
  | cons b bs => simp [chunks64Go]

/-- The digest number is below 2 ^ 160, so the digest lives in a finite
type. -/
lemma sha1Nat_lt (msg : List Nat) : sha1Nat msg < 2 ^ 160 := by
  unfold sha1Nat sha1Words
  have hb := foldl_sha1Chunk_lt (chunks64 (sha1Pad msg)) sha1Init
    (chunks64_sha1Pad_ne_nil msg)
  rcases hfold : (chunks64 (sha1Pad msg)).foldl sha1Chunk sha1Init
    with ⟨a, b, c, d, e⟩
  rw [hfold] at hb
  simp only at hb
  show (((a * 4294967296 + b) * 4294967296 + c) * 4294967296 + d) *
      4294967296 + e < 2 ^ 160
  omega

/-- C4 counterexample: the claim says two fallback-path occurrences in the
same file with different messages never get the same identity.  The identity
factors through the SHA-1 digest number, which lives in the finite type of
numbers below 2 ^ 160, while messages are infinitely many - so two distinct
messages with the same identity exist (truncating to twelve hex characters
only shrinks the codomain further). -/
theorem c4_counterexample :
    ¬ (∀ p1 p2 : Params,
        pget p1 "id" = none → pget p2 "id" = none →
        pget p1 "message" ≠ pget p2 "message" →
        _compute_stable_marker "/notes/week.md" p1 ≠
          _compute_stable_marker "/notes/week.md" p2) := by
  intro hclaim
  haveI : Infinite String :=
    Infinite.of_injective (fun n : Nat => String.mk (List.replicate n 'a'))
      (by
        intro n1 n2 h
        have := congrArg String.length h
        simpa using this)
  obtain ⟨m1, m2, hne, heq⟩ := Finite.exists_ne_map_eq_of_infinite
    (fun m : String =>
      (⟨sha1Nat (markerHashInput "/notes/week.md" m), sha1Nat_lt _⟩ : Fin (2 ^ 160)))
  have hdig : sha1Nat (markerHashInput "/notes/week.md" m1) =
      sha1Nat (markerHashInput "/notes/week.md" m2) := congrArg Fin.val heq
  apply hclaim [("message", m1)] [("message", m2)] rfl rfl
  · intro hmeq
    have h1 : pget [("message", m1)] "message" = some m1 := rfl
    have h2 : pget [("message", m2)] "message" = some m2 := rfl
    rw [h1, h2] at hmeq
    exact hne (Option.some.inj hmeq)
  · rw [marker_takesFallback "/notes/week.md" [("message", m1)] (Or.inl rfl),
      marker_takesFallback "/notes/week.md" [("message", m2)] (Or.inl rfl)]
    have hmd : markerDigest "/notes/week.md" m1 =
        markerDigest "/notes/week.md" m2 := by
      unfold markerDigest
      rw [sha1HexChars_congr _ _ hdig]
    rw [show msgOf [("message", m1)] = m1 from rfl,
      show msgOf [("message", m2)] = m2 from rfl, hmd]

/-- C4 amended: for two fallback-path parameter sets over the same absolute
path, the identities coincide exactly when the truncated twelve-character
SHA-1 digests of their messages coincide; distinct messages with distinct
truncated digests never collide, but the 48-bit truncation admits collisions
in principle. -/
theorem c4_amended (absPath : String) (p1 p2 : Params)
    (h1 : takesFallback p1) (h2 : takesFallback p2) :
    _compute_stable_marker absPath p1 = _compute_stable_marker absPath p2 ↔
      markerDigest absPath (msgOf p1) = markerDigest absPath (msgOf p2) := by
  rw [marker_takesFallback absPath p1 h1, marker_takesFallback absPath p2 h2]
  exact string_append_left_cancel ("@source:" ++ absPath ++ "#") _ _

/-- C4 witness: the amended equivalence at two concrete fallback parameter
sets. -/
theorem c4_witness :
    _compute_stable_marker "/w.md" [("message", "A")] =
        _compute_stable_marker "/w.md" [("message", "B"), ("at", "+30m")] ↔
      markerDigest "/w.md" (msgOf [("message", "A")]) =
        markerDigest "/w.md" (msgOf [("message", "B"), ("at", "+30m")]) := by
  exact c4_amended "/w.md" _ _ (Or.inl rfl) (Or.inl rfl)

/-! ### Claim C5: the tag scanners -/

lemma afterFirst_at_head (pat rest : List Char) (h : pat ≠ []) :
    afterFirst pat (pat ++ rest) = some rest := by
  cases pat with
  | nil => exact absurd rfl h
  | cons p ps =>
    show afterFirst (p :: ps) (p :: (ps ++ rest)) = some rest
    unfold afterFirst
    rw [if_pos]
    · show some (((p :: ps) ++ rest).drop (p :: ps).length) = some rest
      rw [List.drop_left]
    · show (p :: ps).isPrefixOf (p :: (ps ++ rest)) = true
      rw [List.isPrefixOf_iff_prefix]
      exact List.prefix_append _ _

/-- Inside a double-quoted region every character other than a quote or a
backslash is inert: the scan appends it to the buffer, parentheses included,
without touching the depth or closing the tag. -/
lemma scanTagBody_inert (msg : List Char) (h : ∀ c ∈ msg, c ≠ '"' ∧ c ≠ '\\') :
    ∀ (rest : List Char) (depth : Nat) (buf : List Char),
    scanTagBody (msg ++ rest) depth true false buf =
      scanTagBody rest depth true false (buf ++ msg) := by
  induction msg with
  | nil => intro rest depth buf; simp
  | cons c cs ih =>
    intro rest depth buf
    obtain ⟨hq, hb⟩ := h c (by simp)
    show scanTagBody (c :: (cs ++ rest)) depth true false buf = _
    rw [scanTagBody]
    rw [if_neg (by simp), if_neg hb, if_neg hq,
      if_neg (by simp : ¬(c = '(' ∧ true = false)),
      if_neg (by simp : ¬(c = ')' ∧ true = false))]
    rw [ih (fun x hx => h x (by simp [hx])) rest depth (buf ++ [c])]
    congr 1
    simp

lemma extractLoop_succ (n : Nat) (l : List Char) :
    extractLoop (n + 1) l =
      (match afterFirst reminderOpener l with
       | none => []
       | some s =>
         match scanTagBody s 1 false false [] with
         | none => []
         | some (params, rest) => params :: extractLoop n rest) := rfl

lemma extractLoop_found (n : Nat) (l s params rest2 : List Char)
    (hA : afterFirst reminderOpener l = some s)
    (hS : scanTagBody s 1 false false [] = some (params, rest2)) :
    extractLoop (n + 1) l = params :: extractLoop n rest2 := by
  rw [extractLoop_succ, hA]
  show (match scanTagBody s 1 false false [] with
        | none => []
        | some (params, rest) => params :: extractLoop n rest) =
      params :: extractLoop n rest2
  rw [hS]

lemma extractLoop_nil : ∀ n, extractLoop n [] = [] := by
  intro n
  cases n with
  | zero => rfl
  | succ k => simp [extractLoop, afterFirst]

/-- Scanning the concrete closing region: the quote toggles out, the comma
and the at field pass through, and the closing parenthesis at depth one ends
the occurrence without being appended. -/
lemma scanTagBody_tail (B : List Char) :
    scanTagBody "\", at=\"+30m\")".data 1 true false B =
      some (B ++ "\", at=\"+30m\"".data, []) := by
  show scanTagBody ('"' :: ",\x20at=\"+30m\")".data) 1 true false B = _
  simp [scanTagBody, List.append_assoc]

/-- C5 counterexample: the claim covers each tag variant, but the calendar
scanner matches with a regex whose capture stops at the first closing
parenthesis even inside quotes: the spec example is truncated to a raw
parameter text that does not contain the full literal message value (the
imessage scanner uses the same regex shape). -/
theorem c5_counterexample :
    find_calendar_tags_in_text
        "@calendar(message=\"Follow up (Q3), re: budget\", at=\"today 09:30\")" =
      [(1, "message=\"Follow up (Q3")] ∧
    listContainsSub "Follow up (Q3), re: budget".data
      "message=\"Follow up (Q3".data = false := by
  exact ⟨by decide, by decide⟩

/-- C5 amended: the quote- and parenthesis-aware behaviour holds for the
reminders scanner only.  For every message body free of quotes and
backslashes - parentheses and commas included - the whole tag is found as a
single occurrence whose raw parameter text contains the message verbatim;
a parenthesis outside quotes nests via the depth counter; an unterminated
tag on a line yields no occurrence while later lines are still scanned.
The calendar and imessage scanners instead truncate at the first closing
parenthesis. -/
theorem c5_amended :
    (∀ msg : List Char, (∀ c ∈ msg, c ≠ '"' ∧ c ≠ '\\') →
      _extract_tag_params_from_line
          (String.mk (reminderOpener ++
            ("message=\"".data ++ (msg ++ "\", at=\"+30m\")".data)))) =
        [String.mk ("message=\"".data ++ msg ++ "\", at=\"+30m\"".data)]) ∧
    _extract_tag_params_from_line "@reminder(fn(x) y, at=\"+5m\")" =
      ["fn(x) y, at=\"+5m\""] ∧
    find_tags_in_text "@reminder(message=\"x\"\n@reminder(\"y\", at=\"+5m\")" =
      [(2, "\"y\", at=\"+5m\"")] := by
  refine ⟨?_, by decide, by decide⟩
  intro msg h
  have hscan : scanTagBody
      ("message=\"".data ++ (msg ++ "\", at=\"+30m\")".data)) 1 false false [] =
      some ("message=\"".data ++ (msg ++ "\", at=\"+30m\"".data), []) := by
    have h0 : scanTagBody
        ("message=\"".data ++ (msg ++ "\", at=\"+30m\")".data)) 1 false false [] =
        scanTagBody (msg ++ "\", at=\"+30m\")".data) 1 true false
          "message=\"".data := rfl
    rw [h0, scanTagBody_inert msg h, scanTagBody_tail]
    simp [List.append_assoc]
  unfold _extract_tag_params_from_line
  rw [extractLoop_found _ _ _ _ _
    (afterFirst_at_head reminderOpener
      ("message=\"".data ++ (msg ++ "\", at=\"+30m\")".data)) (by decide)) hscan]
  rw [extractLoop_nil]
  simp [List.append_assoc]

/-- C5 witness: the general conjunct applied to the spec message containing
a literal closing parenthesis and a comma inside quotes. -/
theorem c5_witness :
    _extract_tag_params_from_line
        (String.mk (reminderOpener ++
          ("message=\"".data ++
            ("Follow up (Q3), re: budget".data ++ "\", at=\"+30m\")".data)))) =
      [String.mk ("message=\"".data ++ "Follow up (Q3), re: budget".data ++
        "\", at=\"+30m\"".data)] := by
  exact c5_amended.1 "Follow up (Q3), re: budget".data (by decide)

/-! ### Claim C8: the Scanner-to-Parser round trip -/

lemma pyStripL_sandwich (a b : Char) (l : List Char) (ha : isSpaceCh a = false)
    (hb : isSpaceCh b = false) :
    pyStripL (a :: (l ++ [b])) = a :: (l ++ [b]) := by
  unfold pyStripL
  rw [List.dropWhile_cons]
  rw [ha]
  simp only [Bool.false_eq_true, if_false]
  rw [show (a :: (l ++ [b])).reverse = b :: (l.reverse ++ [a]) by simp]
  rw [List.dropWhile_cons, hb]
  simp

/-- A replacement whose pattern starts with a backslash leaves a
backslash-free string unchanged. -/
lemma listReplaceGo_no_bs (p r : List Char) :
    ∀ (s : List Char) (fuel : Nat), '\\' ∉ s →
    listReplaceGo ('\\' :: p) r fuel s = s := by
  intro s
  induction s with
  | nil => intro fuel h; cases fuel <;> rfl
  | cons c rest ih =>
    intro fuel h
    cases fuel with
    | zero => rfl
    | succ k =>
      rw [listReplaceGo]
      rw [if_neg]
      · rw [ih k (fun hm => h (by simp [hm]))]
      · intro hcon
        have hpre := hcon.2
        have hc : c = '\\' := by
          have hp2 := List.isPrefixOf_iff_prefix.mp hpre
          rcases hp2 with ⟨t, ht⟩
          have := congrArg List.head? ht
          simpa using this.symm
        exact h (by simp [hc])

/-- Unquoting a quoted backslash-free value returns it verbatim: the quotes
are stripped and none of the four unescape replacements applies. -/
lemma unquote_plain (msg : String) (h1 : '\\' ∉ msg.data) :
    unquote (String.mk ('"' :: (msg.data ++ ['"']))) = msg := by
  unfold unquote
  rw [show (String.mk ('"' :: (msg.data ++ ['"']))).data =
    '"' :: (msg.data ++ ['"']) from rfl]
  rw [pyStripL_sandwich '"' '"' msg.data (by decide) (by decide)]
  rw [if_pos]
  · have hinner : (('"' :: (msg.data ++ ['"'])).drop 1).dropLast = msg.data := by
      simp
    rw [hinner]
    unfold listReplace
    simp only [listReplaceGo_no_bs, h1, not_false_iff]
  · refine ⟨by simp, rfl, ?_⟩
    show (('"' :: msg.data) ++ ['"']).getLast? = some '"'
    exact List.getLast?_concat _

/-- Splitting the escaped quoted message consumes one level of escaping: the
escape backslashes are dropped, escaped quotes are appended without toggling
the quote flag, and commas inside the quotes do not split. -/
lemma splitKVAux_quoted :
    ∀ (m : List Char) (buf : List Char),
    (∀ c ∈ m, c ≠ '\\' ∧ c ≠ '\n' ∧ c ≠ '\t') →
    splitKVAux ((m.map escapeMsgChar).flatten ++ ['"']) true false buf =
      [pyStripL (buf ++ (m ++ ['"']))] := by
  intro m
  induction m with
  | nil =>
    intro buf h
    show splitKVAux ['"'] true false buf = [pyStripL (buf ++ ['"'])]
    simp [splitKVAux]
  | cons c cs ih =>
    intro buf h
    obtain ⟨hbs, hnl, htb⟩ := h c (by simp)
    rw [List.map_cons, List.flatten_cons]
    by_cases hq : c = '"'
    · subst hq
      show splitKVAux ('\\' :: '"' :: ((cs.map escapeMsgChar).flatten ++ ['"']))
          true false buf = _
      rw [splitKVAux, if_neg (by simp), if_pos rfl]
      rw [splitKVAux, if_pos rfl]
      rw [ih (buf ++ ['"']) (fun x hx => h x (by simp [hx]))]
      simp
    · have hesc : escapeMsgChar c = [c] := by
        unfold escapeMsgChar
        rw [if_neg hbs, if_neg hq, if_neg hnl, if_neg htb]
      rw [hesc]
      show splitKVAux (c :: ((cs.map escapeMsgChar).flatten ++ ['"']))
          true false buf = _
      rw [splitKVAux, if_neg (by simp), if_neg hbs, if_neg hq,
        if_neg (by simp : ¬(c = ',' ∧ true = false))]
      rw [ih (buf ++ [c]) (fun x hx => h x (by simp [hx]))]
      simp

/-- C8 counterexample: the claim says parsing the re-serialized parameters
of an Action yields the same message text.  The two-character message
backslash-n serializes to a double backslash followed by n; split_kvlist
consumes one backslash as an escape and unquote then converts the remaining
backslash-n into a newline - the round trip returns a one-character newline
message, not the original. -/
theorem c8_counterexample :
    parse_tag_params (serializeMessageParam "\\n") = .ok [("message", "\n")] ∧
    ("\n" : String) ≠ "\\n" := by
  exact ⟨by decide, by decide⟩

/-- C8 amended: the round trip holds for every message containing no
backslash, no newline and no tab: serializing it and parsing the result back
through split_kvlist and unquote returns exactly the original message (its
quotes, parentheses and commas included).  Messages containing a backslash,
newline or tab can be corrupted, because split_kvlist consumes escape
backslashes and unquote applies the escape sequences afterwards. -/
theorem c8_amended (msg : String) (h1 : '\\' ∉ msg.data) (h2 : '\n' ∉ msg.data)
    (h3 : '\t' ∉ msg.data) :
    parse_tag_params (serializeMessageParam msg) = .ok [("message", msg)] := by
  have hmem : ∀ c ∈ msg.data, c ≠ '\\' ∧ c ≠ '\n' ∧ c ≠ '\t' := fun c hc =>
    ⟨fun e => h1 (e ▸ hc), fun e => h2 (e ▸ hc), fun e => h3 (e ▸ hc)⟩
  have hstrip : pyStripL ("message=\"".data ++ (msg.data ++ ['"'])) =
      "message=\"".data ++ (msg.data ++ ['"']) := by
    have hassoc : "message=\"".data ++ (msg.data ++ ['"']) =
        'm' :: (("essage=\"".data ++ msg.data) ++ ['"']) := by simp
    rw [hassoc, pyStripL_sandwich 'm' '"' _ (by decide) (by decide)]
  have hsk : split_kvlist (serializeMessageParam msg) =
      [String.mk ("message=\"".data ++ (msg.data ++ ['"']))] := by
    unfold split_kvlist
    have hstep : splitKVAux (serializeMessageParam msg).data false false [] =
        splitKVAux ((msg.data.map escapeMsgChar).flatten ++ ['"']) true false
          "message=\"".data := rfl
    rw [hstep, splitKVAux_quoted msg.data "message=\"".data hmem, hstrip]
    have hne : ("message=\"".data ++ (msg.data ++ ['"'])).isEmpty = false := rfl
    simp [hne]
  have hval : pyStripL ('"' :: (msg.data ++ ['"'])) =
      '"' :: (msg.data ++ ['"']) :=
    pyStripL_sandwich '"' '"' msg.data (by decide) (by decide)
  unfold parse_tag_params
  rw [hsk]
  show Except.ok (dinsert [] "message"
      (unquote (String.mk (pyStripL ('"' :: (msg.data ++ ['"'])))))) =
    Except.ok [("message", msg)]
  rw [hval, unquote_plain msg h1]
  rfl

/-- C8 witness: the amended round trip on the spec message with quotes-free
punctuation. -/
theorem c8_witness :
    parse_tag_params (serializeMessageParam "Follow up (Q3), re: budget") =
      .ok [("message", "Follow up (Q3), re: budget")] := by
  exact c8_amended "Follow up (Q3), re: budget" (by decide) (by decide)
    (by decide)

end CursorCRM
